import Mathlib

set_option maxRecDepth 8000

/-!
Shallow embedding of the networking reactor in src/networkManager.py: the
networkSocket class hierarchy (tcpServerSocket, tcpClientSocket, udpSocket,
remoteClientSocket) and the networkManager reactor loop.

Python exceptions are modelled by an explicit error component returned next
to the post-state, so that partial mutations performed before a raise are
preserved, exactly as in the source.  Logger calls and EventHandlers
fan-out (execute) are modelled as emitted trace events.  OS socket
allocation (socket.socket and accept) hands out fresh handles from a
counter; the outcome of recv and of connect is chosen by the environment
and passed in as a parameter, since it depends on the remote peer.
-/

/-- Exceptions raised by the source: InvalidOperationException, the
selector KeyError on a duplicate or missing registration, and the
list.remove ValueError. -/
inductive PyErr
  | invalidOperation
  | keyError
  | valueError
  deriving DecidableEq, Repr

/-- An OS socket descriptor. -/
abbrev Handle := Nat

/-- A raw byte buffer. -/
abbrev Bytes := List Nat

/-- socket.SocketKind: SOCK_STREAM or SOCK_DGRAM. -/
inductive SockKind
  | sockStream
  | sockDgram
  deriving DecidableEq, Repr, Inhabited

/-- The Python class of a top-level socket object, used for the dynamic
dispatch of the open method. -/
inductive Variant
  | vBase
  | vTcpServer
  | vTcpClient
  | vUdp
  deriving DecidableEq, Repr, Inhabited

/-- Observable effects: logger calls at each severity, and the fan-out of
the connected, disconnected and receive EventHandlers. -/
inductive Ev
  | logDebug
  | logInfo
  | logWarn
  | connected
  | disconnected
  | received (data : Bytes)
  deriving DecidableEq, Repr

/-- selectors.DefaultSelector: the list of registered handles, plus a ghost
log of every register call issued (used only to state the
no-double-registration invariant; it does not influence behaviour). -/
structure Selector where
  registered : List Handle
  registerCalls : List Handle
  deriving DecidableEq, Repr

/-- selector.register: raises KeyError when the handle is already
registered, otherwise adds it. -/
def Selector.register (sel : Selector) (h : Handle) : Selector × Option PyErr :=
  if sel.registered.contains h then
    (⟨sel.registered, sel.registerCalls ++ [h]⟩, some .keyError)
  else
    (⟨sel.registered ++ [h], sel.registerCalls ++ [h]⟩, none)

/-- selector.unregister: raises KeyError when the handle is not
registered, otherwise removes it. -/
def Selector.unregister (sel : Selector) (h : Handle) : Selector × Option PyErr :=
  if sel.registered.contains h then
    (⟨sel.registered.erase h, sel.registerCalls⟩, none)
  else
    (sel, some .keyError)

/-- remoteClientSocket state: cid is the object identity (list.remove on
the parent client list compares by identity), sock is the accepted
connection handle.  The constructor fixes canSend and canReceive to true
and canAccept to false. -/
structure ClientSock where
  cid : Nat
  sock : Option Handle
  remoteAddress : Nat
  deriving DecidableEq, Repr, Inhabited

/-- networkSocket state for a top-level socket (tcpServerSocket,
tcpClientSocket, udpSocket, or the abstract base class). -/
structure NetSocket where
  variant : Variant
  sock : Option Handle
  clients : List ClientSock
  canSend : Bool
  canReceive : Bool
  canAccept : Bool
  socketType : SockKind
  boundAddress : Option Nat
  remoteAddress : Option Nat
  deriving DecidableEq, Repr, Inhabited

/-- The OS socket allocator: socket.socket and accept hand out fresh
handles taken from this counter. -/
structure OS where
  next : Nat
  deriving DecidableEq, Repr

/-- Result of create_socket and of the open methods. -/
structure CreateRes where
  os : OS
  sock : NetSocket
  trace : List Ev
  err : Option PyErr
  deriving DecidableEq, Repr

/-- Result of networkSocket.close. -/
structure CloseRes where
  sock : NetSocket
  sel : Option Selector
  trace : List Ev
  err : Option PyErr
  deriving DecidableEq, Repr

/-- Result of accept_connection and process_data_event. -/
structure StepRes where
  os : OS
  sock : NetSocket
  sel : Selector
  trace : List Ev
  err : Option PyErr
  deriving DecidableEq, Repr

/-- networkSocket.create_socket (networkManager.py lines 59 to 64): the
guard raises InvalidOperationException when self._sock is None (this is
the source condition as written), and otherwise logs and allocates a fresh
AF_INET handle of the socket type, overwriting the current one. -/
def networkSocket.create_socket (os : OS) (s : NetSocket) : CreateRes :=
  match s.sock with
  | none => ⟨os, s, [], some .invalidOperation⟩
  | some _ => ⟨⟨os.next + 1⟩, { s with sock := some os.next }, [.logDebug], none⟩

/-- Dispatch of the open method.  tcpServerSocket.open, tcpClientSocket.open
and udpSocket.open each raise when self._sock is None, then log, call
create_socket, bind, listen for the server (and for udp when bound), and
fire the connected handlers; tcpClientSocket returns a connect failure as
a value (no raise and no connected event); the base class always raises
InvalidOperationException. -/
def networkSocket.openSock (os : OS) (s : NetSocket) (connectOk : Bool) : CreateRes :=
  match s.variant with
  | .vBase => ⟨os, s, [], some .invalidOperation⟩
  | .vTcpServer =>
    match s.sock with
    | none => ⟨os, s, [], some .invalidOperation⟩
    | some _ =>
      let cr := networkSocket.create_socket os s
      match cr.err with
      | some er => ⟨cr.os, cr.sock, [.logDebug] ++ cr.trace, some er⟩
      | none => ⟨cr.os, cr.sock, [.logDebug] ++ cr.trace ++ [.logDebug, .connected], none⟩
  | .vTcpClient =>
    match s.sock with
    | none => ⟨os, s, [], some .invalidOperation⟩
    | some _ =>
      let cr := networkSocket.create_socket os s
      match cr.err with
      | some er => ⟨cr.os, cr.sock, [.logDebug] ++ cr.trace, some er⟩
      | none =>
        if connectOk then
          ⟨cr.os, cr.sock, [.logDebug] ++ cr.trace ++ [.logDebug, .connected], none⟩
        else
          ⟨cr.os, cr.sock, [.logDebug] ++ cr.trace, none⟩
  | .vUdp =>
    match s.sock with
    | none => ⟨os, s, [], some .invalidOperation⟩
    | some _ =>
      let cr := networkSocket.create_socket os s
      match cr.err with
      | some er => ⟨cr.os, cr.sock, [.logDebug] ++ cr.trace, some er⟩
      | none => ⟨cr.os, cr.sock, [.logDebug] ++ cr.trace, none⟩

/-- networkSocket.send_data_raw (lines 69 to 75): raises InvalidOperation
when the handle is absent, then when canSend is false; otherwise logs and
sendall writes the whole buffer (the bytes handed to the OS are returned
as the first component). -/
def networkSocket.send_data_raw (s : NetSocket) (data : Bytes) :
    Option Bytes × List Ev × Option PyErr :=
  match s.sock with
  | none => (none, [], some .invalidOperation)
  | some _ =>
    if s.canSend then (some data, [.logDebug], none)
    else (none, [], some .invalidOperation)

/-- networkSocket.is_this_socket (lines 84 to 90). -/
def networkSocket.is_this_socket (s : NetSocket) (h : Handle) : Bool :=
  match s.sock with
  | none => false
  | some h2 => h2 == h

/-- networkSocket.is_client_of_this_socket (lines 92 to 96): comparison of
the ready handle with each client handle (a closed client compares
unequal, as in Python where the object is compared with None). -/
def networkSocket.is_client_of_this_socket (s : NetSocket) (h : Handle) : Bool :=
  s.clients.any (fun c => c.sock == some h)

/-- networkSocket.register_to_selector (lines 98 to 101). -/
def networkSocket.register_to_selector (s : NetSocket) (sel : Selector) :
    Selector × Option PyErr :=
  match s.sock with
  | none => (sel, some .invalidOperation)
  | some h => sel.register h

/-- remoteClientSocket inherits register_to_selector from networkSocket. -/
def remoteClientSocket.register_to_selector (c : ClientSock) (sel : Selector) :
    Selector × Option PyErr :=
  match c.sock with
  | none => (sel, some .invalidOperation)
  | some h => sel.register h

/-- networkSocket.accept_connection (lines 103 to 114): guard canAccept,
then the handle; accept yields a fresh OS handle and the peer address;
the new handle is made non-blocking, a remoteClientSocket is constructed
and registered, then the same conn handle is registered a second time
directly on the selector, and finally the client is appended to
self._clients.  An exception from either register call propagates before
the append executes. -/
def networkSocket.accept_connection (os : OS) (s : NetSocket) (sel : Selector)
    (peer : Nat) : StepRes :=
  if s.canAccept then
    match s.sock with
    | none => ⟨os, s, sel, [], some .invalidOperation⟩
    | some _ =>
      let conn : Handle := os.next
      let os2 : OS := ⟨os.next + 1⟩
      let remote : ClientSock := ⟨conn, some conn, peer⟩
      let r1 := remoteClientSocket.register_to_selector remote sel
      match r1.2 with
      | some er => ⟨os2, s, r1.1, [.logInfo], some er⟩
      | none =>
        let r2 := r1.1.register conn
        match r2.2 with
        | some er => ⟨os2, s, r2.1, [.logInfo], some er⟩
        | none => ⟨os2, { s with clients := s.clients ++ [remote] }, r2.1, [.logInfo], none⟩
  else ⟨os, s, sel, [], some .invalidOperation⟩

/-- networkSocket.close (lines 130 to 137): log; when a handle exists,
unregister it (when a selector was given; a missing registration raises
and propagates before the handle is closed), close the handle and set it
to None; then _handle_disconnect runs unconditionally, logging and firing
the disconnected handlers even when no handle existed. -/
def networkSocket.close (s : NetSocket) (sel : Option Selector) : CloseRes :=
  match s.sock with
  | some h =>
    match sel with
    | some sl =>
      let u := sl.unregister h
      match u.2 with
      | some er => ⟨s, some u.1, [.logDebug], some er⟩
      | none => ⟨{ s with sock := none }, some u.1, [.logDebug, .logDebug, .disconnected], none⟩
    | none => ⟨{ s with sock := none }, none, [.logDebug, .logDebug, .disconnected], none⟩
  | none => ⟨s, sel, [.logDebug, .logDebug, .disconnected], none⟩

/-- Result of the inherited close on a remoteClientSocket. -/
structure ClientCloseRes where
  client : ClientSock
  sel : Option Selector
  trace : List Ev
  err : Option PyErr
  deriving DecidableEq, Repr

/-- The inherited networkSocket.close applied to a remoteClientSocket
(the super call inside remoteClientSocket.close). -/
def remoteClientSocket.superClose (c : ClientSock) (sel : Option Selector) : ClientCloseRes :=
  match c.sock with
  | some h =>
    match sel with
    | some sl =>
      let u := sl.unregister h
      match u.2 with
      | some er => ⟨c, some u.1, [.logDebug], some er⟩
      | none => ⟨{ c with sock := none }, some u.1, [.logDebug, .logDebug, .disconnected], none⟩
    | none => ⟨{ c with sock := none }, none, [.logDebug, .logDebug, .disconnected], none⟩
  | none => ⟨c, sel, [.logDebug, .logDebug, .disconnected], none⟩

/-- list.remove on the parent client list: removes the first element with
the same identity (cid); raises ValueError when none matches, leaving the
list unchanged. -/
def removeClientById : List ClientSock → Nat → List ClientSock × Option PyErr
  | [], _ => ([], some .valueError)
  | c :: rest, i =>
    if c.cid == i then (rest, none)
    else
      let r := removeClientById rest i
      (c :: r.1, r.2)

/-- Result of the full remoteClientSocket.close override. -/
structure FullClientCloseRes where
  client : ClientSock
  parent : NetSocket
  sel : Option Selector
  trace : List Ev
  err : Option PyErr
  deriving DecidableEq, Repr

/-- remoteClientSocket.close (lines 175 to 177): the inherited close, then
self._parent_socket._clients.remove(self). -/
def remoteClientSocket.close (c : ClientSock) (parent : NetSocket)
    (sel : Option Selector) : FullClientCloseRes :=
  let r := remoteClientSocket.superClose c sel
  match r.err with
  | some er => ⟨r.client, parent, r.sel, r.trace, some er⟩
  | none =>
    let rem := removeClientById parent.clients c.cid
    ⟨r.client, { parent with clients := rem.1 }, r.sel, r.trace, rem.2⟩

/-- Python truthiness of key.data, used in the dead close branch of
process_data_event (if key.data:). -/
def pyTruthy : Option Nat → Bool
  | none => false
  | some v => v != 0

/-- Outcome of self._sock.recv chosen by the environment: an exception, or
a byte buffer (possibly empty). -/
inductive RecvRes
  | recvErr
  | recvOk (data : Bytes)
  deriving DecidableEq, Repr

/-- The value recv returned, as the source inspects it: the source
compares received_data with None, but recv returns a bytes object and
never None, so this is always some. -/
def recvToOptional (data : Bytes) : Option Bytes := some data

/-- networkSocket.process_data_event (lines 139 to 165): raise when no
handle exists; on read readiness attempt recv.  When recv raises: for a
client, warn and close self; otherwise warn, close self, create_socket
and open (self-healing); either of those may itself raise and propagate.
When recv returns: log, and since the bytes object is never None, decode
and fan out through the receive handlers (the None branch, which would
log and close, is dead code in the source).  Note that self here is the
object the reactor resolved, which is always a top-level socket. -/
def networkSocket.process_data_event (os : OS) (s : NetSocket) (keyData : Option Nat)
    (mask : Nat) (isClient : Bool) (sel : Selector) (recv : RecvRes)
    (connectOk : Bool) : StepRes :=
  match s.sock with
  | none => ⟨os, s, sel, [], some .invalidOperation⟩
  | some _ =>
    if mask &&& 1 ≠ 0 then
      match recv with
      | .recvErr =>
        if isClient then
          let c := networkSocket.close s (some sel)
          ⟨os, c.sock, c.sel.getD sel, [.logWarn] ++ c.trace, c.err⟩
        else
          let c := networkSocket.close s (some sel)
          match c.err with
          | some er => ⟨os, c.sock, c.sel.getD sel, [.logWarn] ++ c.trace, some er⟩
          | none =>
            let cr := networkSocket.create_socket os c.sock
            match cr.err with
            | some er =>
              ⟨cr.os, cr.sock, c.sel.getD sel, [.logWarn] ++ c.trace ++ cr.trace, some er⟩
            | none =>
              let o := networkSocket.openSock cr.os cr.sock connectOk
              ⟨o.os, o.sock, c.sel.getD sel,
                [.logWarn] ++ c.trace ++ cr.trace ++ o.trace, o.err⟩
      | .recvOk data =>
        match recvToOptional data with
        | some d => ⟨os, s, sel, [.logDebug] ++ [.logDebug, .logDebug, .received d], none⟩
        | none =>
          let evs2 := if pyTruthy keyData then [Ev.logInfo] else [Ev.logWarn]
          let c := networkSocket.close s (some sel)
          ⟨os, c.sock, c.sel.getD sel, [.logDebug] ++ evs2 ++ c.trace, c.err⟩
    else ⟨os, s, sel, [], none⟩

/-- networkManager state: the managed top-level socket list and the
selector. -/
structure Manager where
  sockets : List NetSocket
  selector : Selector
  deriving DecidableEq, Repr

/-- networkManager.create_socket (lines 238 to 240): append the socket to
the managed list first, then register it with the selector; a raise from
the registration leaves the socket in the list. -/
def networkManager.create_socket (m : Manager) (s : NetSocket) : Manager × Option PyErr :=
  let m2 : Manager := ⟨m.sockets ++ [s], m.selector⟩
  let r := networkSocket.register_to_selector s m2.selector
  (⟨m2.sockets, r.1⟩, r.2)

/-- networkManager.close_socket (lines 242 to 243): delegate to the socket
close, passing the selector. -/
def networkManager.close_socket (m : Manager) (s : NetSocket) :
    NetSocket × Manager × Option PyErr :=
  let c := networkSocket.close s (some m.selector)
  (c.sock, ⟨m.sockets, c.sel.getD m.selector⟩, c.err)

/-- networkManager._find_sock_info (lines 245 to 251): scan the managed
list in order; each socket is matched on its own handle first, then on
its client handles.  The index of the owning top-level socket is returned
together with the isClient flag. -/
def networkManager.find_sock_info : List NetSocket → Handle → Option (Nat × Bool)
  | [], _ => none
  | s :: rest, h =>
    if networkSocket.is_this_socket s h then some (0, false)
    else if networkSocket.is_client_of_this_socket s h then some (0, true)
    else
      match networkManager.find_sock_info rest h with
      | some p => some (p.1 + 1, p.2)
      | none => none

/-- A SelectorKey paired with its ready mask, as reported by select: the
ready handle, the data payload given at registration (always None in this
code base), and the mask. -/
structure ReadyKey where
  fileobj : Handle
  data : Option Nat
  mask : Nat
  deriving DecidableEq, Repr

/-- Environment for one ready event: the key reported by select, the
outcome recv would produce on the resolved socket, the peer address an
accept would report, and whether a connect during a reopen would
succeed. -/
structure EvEnv where
  key : ReadyKey
  recv : RecvRes
  peer : Nat
  connectOk : Bool
  deriving DecidableEq, Repr

/-- Result of the reactor loop body. -/
structure RunRes where
  mgr : Manager
  os : OS
  trace : List Ev
  err : Option PyErr
  deriving DecidableEq, Repr

/-- Body of the for loop of networkManager.run_once (lines 255 to 264):
resolve the owner with _find_sock_info; warn and skip when unresolved;
when the owner canAccept and key.data is None call accept_connection,
otherwise call process_data_event on the resolved owner. -/
def networkManager.run_once_step (m : Manager) (os : OS) (e : EvEnv) : RunRes :=
  match networkManager.find_sock_info m.sockets e.key.fileobj with
  | none => ⟨m, os, [.logWarn], none⟩
  | some p =>
    let s := m.sockets.getD p.1 default
    if s.canAccept ∧ e.key.data = none then
      let a := networkSocket.accept_connection os s m.selector e.peer
      ⟨⟨m.sockets.set p.1 a.sock, a.sel⟩, a.os, a.trace, a.err⟩
    else
      let d := networkSocket.process_data_event os s e.key.data e.key.mask p.2
        m.selector e.recv e.connectOk
      ⟨⟨m.sockets.set p.1 d.sock, d.sel⟩, d.os, d.trace, d.err⟩

/-- networkManager.run_once (lines 253 to 264): process the ready events
in the order select reported them; an exception raised while handling one
event propagates out of run_once, so later events are not processed. -/
def networkManager.run_once (m : Manager) (os : OS) : List EvEnv → RunRes
  | [] => ⟨m, os, [], none⟩
  | e :: rest =>
    match networkManager.run_once_step m os e with
    | ⟨m2, os2, tr2, some er⟩ => ⟨m2, os2, tr2, some er⟩
    | ⟨m2, os2, tr2, none⟩ =>
      let r2 := networkManager.run_once m2 os2 rest
      ⟨r2.mgr, r2.os, tr2 ++ r2.trace, r2.err⟩

/-- Helper for networkManager.shutdown: close each managed socket in
order, threading the selector; an exception propagates. -/
def networkManager.shutdownAux (sel : Selector) :
    List NetSocket → List NetSocket × Selector × List Ev × Option PyErr
  | [] => ([], sel, [], none)
  | s :: rest =>
    let c := networkSocket.close s (some sel)
    match c.err with
    | some er => (c.sock :: rest, c.sel.getD sel, c.trace, some er)
    | none =>
      let r := networkManager.shutdownAux (c.sel.getD sel) rest
      (c.sock :: r.1, r.2.1, c.trace ++ r.2.2.1, r.2.2.2)

/-- networkManager.shutdown (lines 270 to 272). -/
def networkManager.shutdown (m : Manager) : Manager × List Ev × Option PyErr :=
  let r := networkManager.shutdownAux m.selector m.sockets
  (⟨r.1, r.2.1⟩, r.2.2.1, r.2.2.2)

/-- Specification-side reading of claim C1: a managed socket owns a ready
handle when the handle is the socket handle itself or the handle of one
of its accepted connections. -/
def ownsHandle (s : NetSocket) (h : Handle) : Bool :=
  networkSocket.is_this_socket s h || networkSocket.is_client_of_this_socket s h

/-- Specification-side owner resolution: scan the managed list with an
index accumulator; isClient is true exactly when only a client handle of
the owner matched, not its own handle. -/
def resolveOwnerAux (i : Nat) : List NetSocket → Handle → Option (Nat × Bool)
  | [], _ => none
  | s :: rest, h =>
    if ownsHandle s h then some (i, !(networkSocket.is_this_socket s h))
    else resolveOwnerAux (i + 1) rest h

/-- Specification-side owner resolution of the whole managed list. -/
def resolveOwner (l : List NetSocket) (h : Handle) : Option (Nat × Bool) :=
  resolveOwnerAux 0 l h

/-- Specification-side dispatch of one ready event, written from the
wording of claim C1: resolve the owner; when unresolved, log a warning
and skip the event; when the owner is accept-capable and the event
carries no per-connection data marker, invoke acceptConnection on the
owner; otherwise invoke handleDataEvent on the owner. -/
def dispatchSpec (r : RunRes) (e : EvEnv) : RunRes :=
  match resolveOwner r.mgr.sockets e.key.fileobj with
  | none => ⟨r.mgr, r.os, r.trace ++ [.logWarn], r.err⟩
  | some p =>
    let s := r.mgr.sockets.getD p.1 default
    if s.canAccept ∧ e.key.data = none then
      let a := networkSocket.accept_connection r.os s r.mgr.selector e.peer
      ⟨⟨r.mgr.sockets.set p.1 a.sock, a.sel⟩, a.os, r.trace ++ a.trace, a.err⟩
    else
      let d := networkSocket.process_data_event r.os s e.key.data e.key.mask p.2
        r.mgr.selector e.recv e.connectOk
      ⟨⟨r.mgr.sockets.set p.1 d.sock, d.sel⟩, d.os, r.trace ++ d.trace, d.err⟩

/-- Specification-side step of the reactor loop fold: once an exception
has been raised nothing further is processed. -/
def specStep (r : RunRes) (e : EvEnv) : RunRes :=
  match r.err with
  | some _ => r
  | none => dispatchSpec r e

/-- Specification-side reactor loop: fold over the ready events in the
order the multiplexer reported them. -/
def runOnceSpec (m : Manager) (os : OS) (evs : List EvEnv) : RunRes :=
  evs.foldl specStep ⟨m, os, [], none⟩

lemma resolveOwnerAux_eq (l : List NetSocket) : ∀ (i : Nat) (hh : Handle),
    resolveOwnerAux i l hh =
      Option.map (fun p => (p.1 + i, p.2)) (networkManager.find_sock_info l hh) := by
  induction l with
  | nil => intro i hh; rfl
  | cons s rest ih =>
    intro i hh
    simp only [resolveOwnerAux, networkManager.find_sock_info, ownsHandle]
    rcases Bool.eq_false_or_eq_true (networkSocket.is_this_socket s hh) with h1 | h1 <;>
      rcases Bool.eq_false_or_eq_true (networkSocket.is_client_of_this_socket s hh)
        with h2 | h2 <;>
      simp only [h1, h2, Bool.false_or, Bool.true_or, Bool.or_false, Bool.or_true,
        if_true, if_false, Bool.not_true, Bool.not_false, Option.map] <;>
      try simp
    rw [ih (i + 1) hh]
    cases hf : networkManager.find_sock_info rest hh with
    | none => simp
    | some p =>
      obtain ⟨j, b⟩ := p
      simp
      omega

lemma resolveOwner_eq (l : List NetSocket) (hh : Handle) :
    resolveOwner l hh = networkManager.find_sock_info l hh := by
  unfold resolveOwner
  rw [resolveOwnerAux_eq]
  cases networkManager.find_sock_info l hh <;> simp

lemma dispatchSpec_eq (r : RunRes) (e : EvEnv) (hr : r.err = none) :
    dispatchSpec r e =
      ⟨(networkManager.run_once_step r.mgr r.os e).mgr,
       (networkManager.run_once_step r.mgr r.os e).os,
       r.trace ++ (networkManager.run_once_step r.mgr r.os e).trace,
       (networkManager.run_once_step r.mgr r.os e).err⟩ := by
  unfold dispatchSpec networkManager.run_once_step
  rw [resolveOwner_eq]
  cases hf : networkManager.find_sock_info r.mgr.sockets e.key.fileobj with
  | none => simp [hr]
  | some p =>
    by_cases hc : ((r.mgr.sockets.getD p.1 default).canAccept ∧ e.key.data = none)
    · simp only [if_pos hc]
    · simp only [if_neg hc]

lemma specStep_err (er : PyErr) : ∀ (evs : List EvEnv) (r : RunRes), r.err = some er →
    evs.foldl specStep r = r := by
  intro evs
  induction evs with
  | nil => intro r hr; rfl
  | cons e rest ih =>
    intro r hr
    have h1 : specStep r e = r := by simp [specStep, hr]
    rw [List.foldl_cons, h1]
    exact ih r hr

lemma runOnce_fold : ∀ (evs : List EvEnv) (m : Manager) (os : OS) (tr : List Ev),
    List.foldl specStep ⟨m, os, tr, none⟩ evs =
      ⟨(networkManager.run_once m os evs).mgr, (networkManager.run_once m os evs).os,
       tr ++ (networkManager.run_once m os evs).trace,
       (networkManager.run_once m os evs).err⟩ := by
  intro evs
  induction evs with
  | nil =>
    intro m os tr
    simp [networkManager.run_once]
  | cons e rest ih =>
    intro m os tr
    have hstep : specStep ⟨m, os, tr, none⟩ e = dispatchSpec ⟨m, os, tr, none⟩ e := rfl
    rw [List.foldl_cons, hstep, dispatchSpec_eq ⟨m, os, tr, none⟩ e rfl]
    cases ht : networkManager.run_once_step m os e with
    | mk m2 os2 tr2 errv =>
      cases errv with
      | some er =>
        rw [specStep_err er rest _ rfl]
        simp [networkManager.run_once, ht]
      | none =>
        rw [ih m2 os2 (tr ++ tr2)]
        simp [networkManager.run_once, ht, List.append_assoc]

/-- C1: for every call to run_once, each ready handle reported by the
multiplexer is processed in the order reported: the owning top-level
socket is resolved by scanning the managed list; when no owner resolves a
warning is logged and the event is skipped; when the resolved owner is
accept-capable and the readiness event carries no per-connection data
marker, accept_connection is invoked on the owner; otherwise
process_data_event is invoked on the resolved owner.  Stated as:
networkManager.run_once (the line-by-line embedding of the source) is
extensionally equal to runOnceSpec, the in-order fold of the
specification-side dispatch written from the wording of the claim. -/
theorem c1_run_once_dispatch (m : Manager) (os : OS) (evs : List EvEnv) :
    networkManager.run_once m os evs = runOnceSpec m os evs := by
  unfold runOnceSpec
  rw [runOnce_fold evs m os []]
  simp

/-- Failing input for C2: a tcpClientSocket with open handle 0, registered
with the selector, whose recv raises. -/
def c2Sock : NetSocket :=
  ⟨.vTcpClient, some 0, [], true, true, false, .sockStream, none, some 9⟩

/-- Selector state for the C2 scenario. -/
def c2Sel : Selector := ⟨[0], []⟩

/-- C2: the claim says a read failure on a top-level owned socket leads to
close, recreate and reopen, with a disconnected then a connected event and
a non-null handle afterward.  Evaluating process_data_event at the failing
input shows what the code actually does: the socket is closed and the
disconnected handlers fire, but create_socket then raises
InvalidOperationException (its guard fires exactly when the handle is
None, which close just made true), so the socket is never recreated, no
connected event fires, and the handle stays None. -/
theorem c2_read_failure_no_reopen :
    (networkSocket.process_data_event ⟨1⟩ c2Sock none 1 false c2Sel .recvErr true).err
        = some .invalidOperation ∧
    (networkSocket.process_data_event ⟨1⟩ c2Sock none 1 false c2Sel .recvErr true).sock.sock
        = none ∧
    (networkSocket.process_data_event ⟨1⟩ c2Sock none 1 false c2Sel .recvErr true).trace.count
        .disconnected = 1 ∧
    (networkSocket.process_data_event ⟨1⟩ c2Sock none 1 false c2Sel .recvErr true).trace.count
        .connected = 0 := by
  decide

/-- The accepted connection of the C3 scenario, with handle 1. -/
def c3Client : ClientSock := ⟨1, some 1, 7⟩

/-- The listener of the C3 scenario, with handle 0 and one accepted
client. -/
def c3Listener : NetSocket :=
  ⟨.vTcpServer, some 0, [c3Client], true, true, true, .sockStream, some 3, none⟩

/-- Manager state for the C3 scenario: the listener is managed and both
handles are registered. -/
def c3Mgr : Manager := ⟨[c3Listener], ⟨[0, 1], []⟩⟩

/-- Readiness of the client handle 1 (data marker None, as every
registration in this code base passes no data), with a pending read
failure. -/
def c3Event : EvEnv := ⟨⟨1, none, 1⟩, .recvErr, 7, true⟩

/-- C3: the claim says a read failure on an AcceptedConnection closes it
permanently, fires its disconnected event once and removes it from the
listener client collection.  Evaluating run_once at the failing input
shows the code never reaches that path: because the resolved owner is the
accept-capable listener and key.data is None, run_once calls
accept_connection instead of process_data_event, which then fails with
KeyError on its duplicate registration; the client stays in the
collection, is never closed, and no disconnected event fires. -/
theorem c3_client_read_failure_misrouted :
    (networkManager.run_once c3Mgr ⟨2⟩ [c3Event]).err = some .keyError ∧
    ((networkManager.run_once c3Mgr ⟨2⟩ [c3Event]).mgr.sockets.getD 0 default).clients
        = [c3Client] ∧
    (networkManager.run_once c3Mgr ⟨2⟩ [c3Event]).trace.count .disconnected = 0 := by
  decide

/-- Failing input for C4: an open socket whose recv returns the empty
buffer (peer closed the write side). -/
def c4Sock : NetSocket :=
  ⟨.vTcpClient, some 0, [], true, true, false, .sockStream, none, some 9⟩

/-- Selector state for the C4 scenario. -/
def c4Sel : Selector := ⟨[0], []⟩

/-- C4: the claim says a zero-length read causes close and exactly one
firing of the disconnected handlers.  Evaluating process_data_event on an
empty read shows the code instead delivers the empty buffer to the
receive handlers and never closes: the source compares received_data with
None, which a zero-length bytes object is not, so the closing branch is
dead code. -/
theorem c4_zero_length_read_delivered :
    (networkSocket.process_data_event ⟨1⟩ c4Sock none 1 false c4Sel (.recvOk []) true)
        = ⟨⟨1⟩, c4Sock, c4Sel, [.logDebug, .logDebug, .logDebug, .received []], none⟩ ∧
    (networkSocket.process_data_event ⟨1⟩ c4Sock none 1 false c4Sel
        (.recvOk []) true).trace.count .disconnected = 0 := by
  decide

/-- Failing input for C5: a listener with open handle 0 and no clients,
registered with the selector, accepting a fresh connection. -/
def c5Listener : NetSocket :=
  ⟨.vTcpServer, some 0, [], true, true, true, .sockStream, some 3, none⟩

/-- Selector state for the C5 scenario. -/
def c5Sel : Selector := ⟨[0], []⟩

/-- C5: the claim says acceptConnection on a valid listener ends with the
AcceptedConnection present in the client collection.  Evaluating
accept_connection at the failing input shows it raises KeyError: the
freshly registered conn handle is registered a second time directly on
the selector, which rejects the duplicate, so the append to the client
collection never executes and the collection stays empty. -/
theorem c5_accept_double_register_fails :
    (networkSocket.accept_connection ⟨1⟩ c5Listener c5Sel 7).err = some .keyError ∧
    (networkSocket.accept_connection ⟨1⟩ c5Listener c5Sel 7).sock.clients = [] := by
  decide

/-- Failing input for C6: the same valid listener accept. -/
def c6Listener : NetSocket :=
  ⟨.vTcpServer, some 0, [], true, true, true, .sockStream, some 3, none⟩

/-- Selector state for the C6 scenario. -/
def c6Sel : Selector := ⟨[0], []⟩

/-- C6: the claim says no operation ever registers the same socket handle
with the multiplexer twice.  Evaluating accept_connection shows the ghost
log of register calls gains the accepted handle 1 twice in a single
operation (once through the remoteClientSocket registration and once
directly), and the duplicate raises KeyError. -/
theorem c6_accept_registers_twice :
    (networkSocket.accept_connection ⟨1⟩ c6Listener c6Sel 7).sel.registerCalls = [1, 1] ∧
    (networkSocket.accept_connection ⟨1⟩ c6Listener c6Sel 7).err = some .keyError := by
  decide

lemma removeClientById_count_zero : ∀ (l : List ClientSock) (i : Nat),
    (l.filter (fun x => x.cid == i)).length = 0 →
    removeClientById l i = (l, some .valueError) := by
  intro l
  induction l with
  | nil => intro i _; rfl
  | cons c rest ih =>
    intro i hcount
    cases hb : (c.cid == i) with
    | true =>
      exfalso
      have hfc : (c :: rest).filter (fun x => x.cid == i)
          = c :: rest.filter (fun x => x.cid == i) := by
        simp [List.filter_cons, hb]
      rw [hfc] at hcount
      simp at hcount
    | false =>
      have hfc : (c :: rest).filter (fun x => x.cid == i)
          = rest.filter (fun x => x.cid == i) := by
        simp [List.filter_cons, hb]
      rw [hfc] at hcount
      simp [removeClientById, hb, ih i hcount]

lemma removeClientById_count_one : ∀ (l : List ClientSock) (i : Nat),
    (l.filter (fun x => x.cid == i)).length = 1 →
    (removeClientById l i).2 = none ∧
    (((removeClientById l i).1.filter (fun x => x.cid == i)).length = 0) := by
  intro l
  induction l with
  | nil => intro i hcount; simp at hcount
  | cons c rest ih =>
    intro i hcount
    cases hb : (c.cid == i) with
    | true =>
      have hfc : (c :: rest).filter (fun x => x.cid == i)
          = c :: rest.filter (fun x => x.cid == i) := by
        simp [List.filter_cons, hb]
      rw [hfc, List.length_cons] at hcount
      have h0 : (rest.filter (fun x => x.cid == i)).length = 0 := by omega
      constructor
      · simp [removeClientById, hb]
      · simp [removeClientById, hb, h0]
    | false =>
      have hfc : (c :: rest).filter (fun x => x.cid == i)
          = rest.filter (fun x => x.cid == i) := by
        simp [List.filter_cons, hb]
      rw [hfc] at hcount
      obtain ⟨h1, h2⟩ := ih i hcount
      constructor
      · simp [removeClientById, hb, h1]
      · have hfc2 : (c :: (removeClientById rest i).1).filter (fun x => x.cid == i)
            = (removeClientById rest i).1.filter (fun x => x.cid == i) := by
          simp [List.filter_cons, hb]
        simp [removeClientById, hb, hfc2, h2]

/-- Concrete input for C7: a socket whose handle is already absent. -/
def c7Closed : NetSocket :=
  ⟨.vTcpClient, none, [], true, true, false, .sockStream, none, some 9⟩

/-- C7 counterexample: the claim says close on a socket whose handle is
already absent fires no handler, but evaluating networkSocket.close on a
handle-less socket shows the disconnected handlers fire anyway, because
_handle_disconnect runs outside the handle guard. -/
theorem c7_close_counterexample :
    Ev.disconnected ∈ (networkSocket.close c7Closed none).trace := by
  decide

/-- C7 amended: close on a socket whose handle is already absent logs and
leaves the socket and selector state unchanged, but still fires the
disconnected handlers; closing an AcceptedConnection whose handle is open
and registered removes it from the owner client collection on the first
close, and a second close fires disconnected again and then raises
ValueError from the removal, leaving the owner collection unchanged
rather than being a no-op. -/
theorem c7_close_amended :
    (∀ (s : NetSocket) (sel : Option Selector), s.sock = none →
      networkSocket.close s sel = ⟨s, sel, [.logDebug, .logDebug, .disconnected], none⟩) ∧
    (∀ (c : ClientSock) (parent : NetSocket) (sel : Selector) (h : Handle),
      c.sock = some h → sel.registered.contains h = true →
      (parent.clients.filter (fun x => x.cid == c.cid)).length = 1 →
      (remoteClientSocket.close c parent (some sel)).err = none ∧
      ((remoteClientSocket.close c parent (some sel)).parent.clients.filter
          (fun x => x.cid == c.cid)).length = 0 ∧
      (remoteClientSocket.close (remoteClientSocket.close c parent (some sel)).client
          (remoteClientSocket.close c parent (some sel)).parent
          (remoteClientSocket.close c parent (some sel)).sel).err = some .valueError ∧
      (remoteClientSocket.close (remoteClientSocket.close c parent (some sel)).client
          (remoteClientSocket.close c parent (some sel)).parent
          (remoteClientSocket.close c parent (some sel)).sel).parent
        = (remoteClientSocket.close c parent (some sel)).parent) := by
  constructor
  · intro s sel hs
    simp [networkSocket.close, hs]
  · intro c parent sel h hc hreg hcount
    obtain ⟨hrem2, hrem1⟩ := removeClientById_count_one parent.clients c.cid hcount
    have hmem : h ∈ sel.registered := by simpa using hreg
    have hsup : remoteClientSocket.superClose c (some sel) =
        ⟨{ c with sock := none }, some ⟨sel.registered.erase h, sel.registerCalls⟩,
          [.logDebug, .logDebug, .disconnected], none⟩ := by
      simp [remoteClientSocket.superClose, hc, Selector.unregister, hmem]
    have hclose1 : remoteClientSocket.close c parent (some sel) =
        ⟨{ c with sock := none },
         { parent with clients := (removeClientById parent.clients c.cid).1 },
         some ⟨sel.registered.erase h, sel.registerCalls⟩,
         [.logDebug, .logDebug, .disconnected],
         (removeClientById parent.clients c.cid).2⟩ := by
      simp [remoteClientSocket.close, hsup]
    have hsup2 : remoteClientSocket.superClose { c with sock := none }
        (some ⟨sel.registered.erase h, sel.registerCalls⟩) =
        ⟨{ c with sock := none }, some ⟨sel.registered.erase h, sel.registerCalls⟩,
          [.logDebug, .logDebug, .disconnected], none⟩ := rfl
    have hzero : removeClientById (removeClientById parent.clients c.cid).1 c.cid
        = ((removeClientById parent.clients c.cid).1, some .valueError) :=
      removeClientById_count_zero _ _ hrem1
    have hclose2 : remoteClientSocket.close { c with sock := none }
        { parent with clients := (removeClientById parent.clients c.cid).1 }
        (some ⟨sel.registered.erase h, sel.registerCalls⟩) =
        ⟨{ c with sock := none },
         { parent with clients := (removeClientById parent.clients c.cid).1 },
         some ⟨sel.registered.erase h, sel.registerCalls⟩,
         [.logDebug, .logDebug, .disconnected],
         some .valueError⟩ := by
      simp [remoteClientSocket.close, hsup2, hzero]
    have hgoal3 : remoteClientSocket.close
        (remoteClientSocket.close c parent (some sel)).client
        (remoteClientSocket.close c parent (some sel)).parent
        (remoteClientSocket.close c parent (some sel)).sel =
        ⟨{ c with sock := none },
         { parent with clients := (removeClientById parent.clients c.cid).1 },
         some ⟨sel.registered.erase h, sel.registerCalls⟩,
         [.logDebug, .logDebug, .disconnected],
         some .valueError⟩ := by
      rw [hclose1]
      exact hclose2
    refine ⟨?_, ?_, ?_, ?_⟩
    · rw [hclose1]
      exact hrem2
    · rw [hclose1]
      exact hrem1
    · rw [hgoal3]
    · rw [hgoal3, hclose1]

/-- The accepted connection of the C7 witness scenario, handle 5. -/
def c7WClient : ClientSock := ⟨1, some 5, 7⟩

/-- The owner of the C7 witness client, handle 0, one client. -/
def c7WParent : NetSocket :=
  ⟨.vTcpServer, some 0, [⟨1, some 5, 7⟩], true, true, true, .sockStream, some 3, none⟩

/-- Selector of the C7 witness scenario: both handles registered. -/
def c7WSel : Selector := ⟨[0, 5], []⟩

/-- Witness for the amended C7 theorem at concrete inputs. -/
theorem c7_close_amended_witness :
    (networkSocket.close c7Closed none
        = ⟨c7Closed, none, [.logDebug, .logDebug, .disconnected], none⟩) ∧
    ((remoteClientSocket.close c7WClient c7WParent (some c7WSel)).err = none ∧
     ((remoteClientSocket.close c7WClient c7WParent (some c7WSel)).parent.clients.filter
         (fun x => x.cid == c7WClient.cid)).length = 0 ∧
     (remoteClientSocket.close
         (remoteClientSocket.close c7WClient c7WParent (some c7WSel)).client
         (remoteClientSocket.close c7WClient c7WParent (some c7WSel)).parent
         (remoteClientSocket.close c7WClient c7WParent (some c7WSel)).sel).err
       = some .valueError ∧
     (remoteClientSocket.close
         (remoteClientSocket.close c7WClient c7WParent (some c7WSel)).client
         (remoteClientSocket.close c7WClient c7WParent (some c7WSel)).parent
         (remoteClientSocket.close c7WClient c7WParent (some c7WSel)).sel).parent
       = (remoteClientSocket.close c7WClient c7WParent (some c7WSel)).parent) :=
  ⟨c7_close_amended.1 c7Closed none rfl,
   c7_close_amended.2 c7WClient c7WParent c7WSel 5 rfl (by decide) (by decide)⟩

/-- Failing input for C8: a freshly constructed socket (no handle yet). -/
def c8Closed : NetSocket :=
  ⟨.vTcpClient, none, [], true, true, false, .sockStream, none, some 9⟩

/-- Contrast input for C8: a socket that already has handle 2. -/
def c8Open : NetSocket :=
  ⟨.vTcpClient, some 2, [], true, true, false, .sockStream, none, some 9⟩

/-- C8: the claim says create_socket fails with InvalidOperation exactly
when a handle already exists, and otherwise allocates a fresh handle.
Evaluating create_socket shows the exact inverse: on a socket with no
handle it raises InvalidOperationException (contradicting its own error
message, which says the socket already exists), and on a socket whose
handle exists it succeeds, silently overwriting the old handle with a
fresh one. -/
theorem c8_create_socket_inverted :
    c8Closed.sock = none ∧
    (networkSocket.create_socket ⟨5⟩ c8Closed).err = some .invalidOperation ∧
    c8Open.sock = some 2 ∧
    (networkSocket.create_socket ⟨5⟩ c8Open).err = none ∧
    (networkSocket.create_socket ⟨5⟩ c8Open).sock.sock = some 5 := by
  decide

/-- C9: send_data_raw fails with InvalidOperation whenever the handle is
absent, and whenever canSend is false regardless of handle state; in
every error case nothing is handed to the OS (no silent discard), and
when the handle is present and canSend holds, the whole buffer is
written. -/
theorem c9_send_raw (s : NetSocket) (data : Bytes) :
    (s.sock = none →
      networkSocket.send_data_raw s data = (none, [], some .invalidOperation)) ∧
    (s.canSend = false →
      networkSocket.send_data_raw s data = (none, [], some .invalidOperation)) ∧
    (∀ h, s.sock = some h → s.canSend = true →
      networkSocket.send_data_raw s data = (some data, [.logDebug], none)) ∧
    ((networkSocket.send_data_raw s data).2.2 = none →
      (networkSocket.send_data_raw s data).1 = some data) := by
  unfold networkSocket.send_data_raw
  cases hs : s.sock with
  | none => simp
  | some h =>
    cases hcs : s.canSend with
    | false => simp [hcs]
    | true => simp [hcs]

/-- Concrete closed socket for the C9 witness. -/
def c9NoHandle : NetSocket :=
  ⟨.vTcpClient, none, [], true, true, false, .sockStream, none, some 9⟩

/-- Concrete sendable socket for the C9 witness. -/
def c9Sendable : NetSocket :=
  ⟨.vTcpClient, some 0, [], true, true, false, .sockStream, none, some 9⟩

/-- Witness for C9 at concrete inputs: a closed socket raises, an open
send-capable socket writes the whole buffer. -/
theorem c9_send_raw_witness :
    networkSocket.send_data_raw c9NoHandle [1, 2] = (none, [], some .invalidOperation) ∧
    networkSocket.send_data_raw c9Sendable [1, 2] = (some [1, 2], [.logDebug], none) :=
  ⟨(c9_send_raw c9NoHandle [1, 2]).1 rfl,
   (c9_send_raw c9Sendable [1, 2]).2.2.1 0 rfl rfl⟩

/-- C10: registering a handle-less socket with the reactor raises
InvalidOperation, but the socket has already been appended to the managed
list before the registration is attempted, so the failed call leaves the
handle-less socket in the list that run_once and shutdown iterate over. -/
theorem c10_register_not_atomic (m : Manager) (s : NetSocket) (hs : s.sock = none) :
    networkManager.create_socket m s
      = (⟨m.sockets ++ [s], m.selector⟩, some .invalidOperation) := by
  simp [networkManager.create_socket, networkSocket.register_to_selector, hs]

/-- Empty manager for the C10 witness. -/
def c10Mgr : Manager := ⟨[], ⟨[], []⟩⟩

/-- Handle-less socket for the C10 witness. -/
def c10Sock : NetSocket :=
  ⟨.vTcpServer, none, [], true, true, true, .sockStream, some 3, none⟩

/-- Witness for C10 at concrete inputs. -/
theorem c10_register_not_atomic_witness :
    networkManager.create_socket c10Mgr c10Sock
      = (⟨[c10Sock], ⟨[], []⟩⟩, some .invalidOperation) :=
  c10_register_not_atomic c10Mgr c10Sock rfl
